import Mathlib

/-!
Verification of the polling loop in `monitor.py`.

The program is:

```python
while True:
    try:
        conn = http.client.HTTPSConnection(host)
        conn.request("GET", path)
        response = conn.getresponse()
        print(f"Status: {response.status} {response.reason}")
        data = response.read()
        conn.close()
    except Exception as e:
        print(f"Request failed: {e}")
    time.sleep(1)
```

We embed one iteration as a function of a `NetBehavior` describing what each
network-touching step does (succeed, or raise a Python exception).  Python
exceptions are modelled by `Exc`; the flag `isCancellation` distinguishes
`BaseException`s that do NOT derive from `Exception` (`KeyboardInterrupt`,
`SystemExit`), which `except Exception` does not catch, from ordinary
exceptions, which it does.  The iteration produces a list of observable
`Event`s (printed lines, connection open/close, body read, sleep) and an
outcome (completed, i.e. control reaches the next iteration, or terminated by
an uncaught exception).
-/

/-- A Python exception value: `msg` is `str(e)`; `isCancellation` is true for
`BaseException`s not derived from `Exception` (e.g. `KeyboardInterrupt`),
which `except Exception` does not catch. -/
structure Exc where
  msg : String
  isCancellation : Bool
deriving DecidableEq, Repr

/-- Result of one runtime step: return a value, or raise an exception. -/
inductive StepResult (α : Type) where
  | ok : α → StepResult α
  | exn : Exc → StepResult α
deriving DecidableEq, Repr

/-- An HTTP response as `conn.getresponse()` yields it: `status`, `reason`,
and the body bytes that `response.read()` would return. -/
structure HTTPResponse where
  status : Nat
  reason : String
  body : List Nat
deriving DecidableEq, Repr

/-- What the environment does at each step of one iteration:
`construct` is `http.client.HTTPSConnection(host)`, `request` is
`conn.request("GET", path)`, `getresponse` is `conn.getresponse()`,
`readBody` is `response.read()`, `close` is `conn.close()`, and
`sleepSignal` is an asynchronous signal (if any) delivered during
`time.sleep(1)`. -/
structure NetBehavior where
  construct : StepResult Unit
  request : StepResult Unit
  getresponse : StepResult HTTPResponse
  readBody : StepResult Unit
  close : StepResult Unit
  sleepSignal : Option Exc
deriving DecidableEq, Repr

/-- Observable events of one iteration. -/
inductive Event where
  | print : String → Event
  | connOpened : Event
  | bodyRead : Event
  | connClosed : Event
  | sleep : Nat → Event
deriving DecidableEq, Repr

/-- The success line: `f"Status: {response.status} {response.reason}"`. -/
def statusLine (r : HTTPResponse) : String :=
  "Status: " ++ toString r.status ++ " " ++ r.reason

/-- The failure line: `f"Request failed: {e}"`. -/
def failureLine (e : Exc) : String :=
  "Request failed: " ++ e.msg

/-- The `try` block body (lines 9–16 of `monitor.py`), run step by step:
returns the events it emitted and the exception it raised, if any.  Mirrors
the source order: construct, request, getresponse, **print the status line**,
read the body, close. -/
def tryBody (net : NetBehavior) : List Event × Option Exc :=
  match net.construct with
  | .exn e => ([], some e)
  | .ok _ =>
    match net.request with
    | .exn e => ([Event.connOpened], some e)
    | .ok _ =>
      match net.getresponse with
      | .exn e => ([Event.connOpened], some e)
      | .ok resp =>
        match net.readBody with
        | .exn e => ([Event.connOpened, Event.print (statusLine resp)], some e)
        | .ok _ =>
          match net.close with
          | .exn e =>
            ([Event.connOpened, Event.print (statusLine resp),
              Event.bodyRead], some e)
          | .ok _ =>
            ([Event.connOpened, Event.print (statusLine resp),
              Event.bodyRead, Event.connClosed], none)

/-- How one iteration ends: `completed` means control reached the end of the
loop body (a next iteration follows); `terminated` means an uncaught
exception propagated out and the process exits. -/
inductive IterOutcome where
  | completed : IterOutcome
  | terminated : Exc → IterOutcome
deriving DecidableEq, Repr

/-- The `time.sleep(1)` at line 19: an asynchronous signal delivered during
the sleep is not caught by anything and terminates the process. -/
def doSleep (evs : List Event) (net : NetBehavior) : List Event × IterOutcome :=
  match net.sleepSignal with
  | some e => (evs, .terminated e)
  | none => (evs ++ [Event.sleep 1], .completed)

/-- One full iteration of the `while True` loop: the `try` block, the
`except Exception` handler (which catches only non-cancellation exceptions
and prints the failure line), then `time.sleep(1)`. -/
def runIteration (net : NetBehavior) : List Event × IterOutcome :=
  match tryBody net with
  | (evs, none) => doSleep evs net
  | (evs, some e) =>
    if e.isCancellation then (evs, .terminated e)
    else doSleep (evs ++ [Event.print (failureLine e)]) net

/-- The lines printed in an event trace. -/
def printsOf (evs : List Event) : List String :=
  evs.filterMap fun ev =>
    match ev with
    | .print s => some s
    | _ => none

/-- A step raises no cancellation-class exception. -/
def stepCancelFree {α : Type} : StepResult α → Bool
  | .ok _ => true
  | .exn e => !e.isCancellation

/-- A `NetBehavior` raises no cancellation-class exception anywhere:
no `KeyboardInterrupt`/`SystemExit` from any step, and no signal during
the sleep. -/
def NetBehavior.cancelFree (net : NetBehavior) : Prop :=
  stepCancelFree net.construct = true ∧
  stepCancelFree net.request = true ∧
  stepCancelFree net.getresponse = true ∧
  stepCancelFree net.readBody = true ∧
  stepCancelFree net.close = true ∧
  net.sleepSignal = none

instance (net : NetBehavior) : Decidable net.cancelFree := by
  unfold NetBehavior.cancelFree; infer_instance

/-- The behavior where every step succeeds with response `resp`. -/
def allOk (resp : HTTPResponse) : NetBehavior :=
  { construct := .ok (), request := .ok (), getresponse := .ok resp,
    readBody := .ok (), close := .ok (), sleepSignal := none }

/-- Control state of the process: `requesting n` = about to run iteration
`n`'s `try`/`except` block, `sleeping n` = about to run iteration `n`'s
`time.sleep(1)`, `exited` = the process has terminated. -/
inductive ProcState where
  | requesting : Nat → ProcState
  | sleeping : Nat → ProcState
  | exited : ProcState
deriving DecidableEq, Repr

/-- Small-step transition function of the `while True` loop, driven by the
per-iteration environment `nets`.  From `requesting n` the `try`/`except`
runs: an uncaught (cancellation) exception exits the process, anything else
falls through to the sleep.  From `sleeping n` a delivered signal exits the
process, otherwise iteration `n + 1` begins. -/
def procStep (nets : Nat → NetBehavior) : ProcState → ProcState
  | .requesting n =>
    match tryBody (nets n) with
    | (_, none) => .sleeping n
    | (_, some e) => if e.isCancellation then .exited else .sleeping n
  | .sleeping n =>
    match (nets n).sleepSignal with
    | some _ => .exited
    | none => .requesting (n + 1)
  | .exited => .exited

/-- Whether an event is a printed line. -/
def isPrint : Event → Bool
  | .print _ => true
  | _ => false

/-- Some body-read event occurs strictly before some printed line in the
trace (the ordering the spec prescribes for step 3 vs step 4). -/
def readBeforePrint (evs : List Event) : Prop :=
  ∃ i : Fin evs.length, ∃ j : Fin evs.length,
    (i : Nat) < (j : Nat) ∧ evs.get i = Event.bodyRead ∧
      isPrint (evs.get j) = true

instance (evs : List Event) : Decidable (readBeforePrint evs) := by
  unfold readBeforePrint; infer_instance

/-- An iteration whose `response.read()` raises an ordinary exception after
the status line was already printed. -/
def readFailNet : NetBehavior :=
  { construct := .ok (), request := .ok (), getresponse := .ok ⟨200, "OK", []⟩,
    readBody := .exn ⟨"IncompleteRead", false⟩, close := .ok (),
    sleepSignal := none }

/-- An iteration whose `conn.getresponse()` raises an ordinary exception
(e.g. a socket timeout) after the connection object was created. -/
def getresponseFailNet : NetBehavior :=
  { construct := .ok (), request := .ok (),
    getresponse := .exn ⟨"The read operation timed out", false⟩,
    readBody := .ok (), close := .ok (), sleepSignal := none }

/-- An iteration whose `conn.request(...)` raises an ordinary exception
(e.g. a DNS resolution failure). -/
def requestFailNet : NetBehavior :=
  { construct := .ok (), request := .exn ⟨"getaddrinfo failed", false⟩,
    getresponse := .ok ⟨200, "OK", []⟩, readBody := .ok (), close := .ok (),
    sleepSignal := none }

/-- An iteration interrupted by a cancellation-class exception
(`KeyboardInterrupt`) while reading the body. -/
def interruptNet : NetBehavior :=
  { construct := .ok (), request := .ok (), getresponse := .ok ⟨200, "OK", []⟩,
    readBody := .exn ⟨"", true⟩, close := .ok (), sleepSignal := none }

/-- The environment in which every iteration fully succeeds with 200/"OK". -/
def okNets : Nat → NetBehavior := fun _ => allOk ⟨200, "OK", []⟩

/-- Any exception escaping the `try` block of a cancellation-free iteration
is an ordinary (caught) exception. -/
theorem tryBody_exn_not_cancel (net : NetBehavior) (h : net.cancelFree)
    (e : Exc) (he : (tryBody net).2 = some e) : e.isCancellation = false := by
  obtain ⟨c, r, g, b, cl, s⟩ := net
  obtain ⟨h1, h2, h3, h4, h5, h6⟩ := h
  cases c <;> cases r <;> cases g <;> cases b <;> cases cl <;>
    simp_all [tryBody, stepCancelFree]

/-- In a cancellation-free iteration, the request phase always falls through
to the sleep phase. -/
theorem procStep_requesting (nets : Nat → NetBehavior) (n : Nat)
    (h : (nets n).cancelFree) :
    procStep nets (.requesting n) = .sleeping n := by
  show (match tryBody (nets n) with
    | (_, none) => ProcState.sleeping n
    | (_, some e) =>
      if e.isCancellation then ProcState.exited else ProcState.sleeping n) =
    ProcState.sleeping n
  cases htb : tryBody (nets n) with
  | mk evs exc =>
    cases exc with
    | none => rfl
    | some e =>
      have : e.isCancellation = false :=
        tryBody_exn_not_cancel (nets n) h e (by rw [htb])
      simp [this]

/-- In a cancellation-free iteration, the sleep phase always starts the next
iteration. -/
theorem procStep_sleeping (nets : Nat → NetBehavior) (n : Nat)
    (h : (nets n).cancelFree) :
    procStep nets (.sleeping n) = .requesting (n + 1) := by
  show (match (nets n).sleepSignal with
    | some _ => ProcState.exited
    | none => ProcState.requesting (n + 1)) = ProcState.requesting (n + 1)
  rw [h.2.2.2.2.2]

/-- `printsOf` distributes over trace concatenation. -/
theorem printsOf_append (a b : List Event) :
    printsOf (a ++ b) = printsOf a ++ printsOf b := by
  simp [printsOf]

/-- The `try` block never emits a sleep event: `time.sleep(1)` is outside it. -/
theorem tryBody_no_sleep (net : NetBehavior) (k : Nat) :
    Event.sleep k ∉ (tryBody net).1 := by
  obtain ⟨c, r, g, b, cl, s⟩ := net
  cases c <;> cases r <;> cases g <;> cases b <;> cases cl <;>
    simp [tryBody]

/-- The `try` block prints at most one line, and exactly one when it runs to
completion (the status line at line 12). -/
theorem tryBody_prints_bound (net : NetBehavior) :
    (printsOf (tryBody net).1).length ≤ 1 ∧
    ((tryBody net).2 = none → (printsOf (tryBody net).1).length = 1) := by
  obtain ⟨c, r, g, b, cl, s⟩ := net
  cases c <;> cases r <;> cases g <;> cases b <;> cases cl <;>
    simp [tryBody, printsOf]

/-- Shape of a cancellation-free iteration: the trace is the `try` block's
events, then the handler's failure line when an exception was caught, then
the sleep; and control falls through to the next iteration. -/
theorem runIteration_shape (net : NetBehavior) (h : net.cancelFree) :
    (runIteration net).1 =
      ((tryBody net).1 ++
        (match (tryBody net).2 with
          | none => []
          | some e => [Event.print (failureLine e)])) ++ [Event.sleep 1] ∧
    (runIteration net).2 = .completed := by
  have hs : net.sleepSignal = none := h.2.2.2.2.2
  cases htb : tryBody net with
  | mk evs exc =>
    cases exc with
    | none => simp [runIteration, htb, doSleep, hs]
    | some e =>
      have hc : e.isCancellation = false :=
        tryBody_exn_not_cancel net h e (by rw [htb])
      simp [runIteration, htb, hc, doSleep, hs]

/-- C1 counterexample: when `response.read()` raises after the status line
has been printed (line 12 precedes line 13), the iteration completes
normally to its sleep having reported TWO lines, not one — refuting
"no iteration reports more than one outcome, regardless of where within the
iteration a failure occurs". -/
theorem C1_two_reports_counterexample :
    (runIteration readFailNet).2 = .completed ∧
    ¬ (printsOf (runIteration readFailNet).1).length = 1 := by
  constructor
  · rfl
  · decide

/-- C1 (amended): every cancellation-free iteration reports at least one and
at most two outcome lines, all before its sleep begins; it reports exactly
two precisely when the `try` block raised after having already printed the
status line (i.e. during `response.read()` or `conn.close()`). -/
theorem C1_amended_outcome_count (net : NetBehavior) (h : net.cancelFree) :
    ∃ pre, (runIteration net).1 = pre ++ [Event.sleep 1] ∧
      (∀ k, Event.sleep k ∉ pre) ∧
      1 ≤ (printsOf pre).length ∧ (printsOf pre).length ≤ 2 ∧
      ((printsOf pre).length = 2 ↔
        (tryBody net).2 ≠ none ∧ (printsOf (tryBody net).1).length = 1) := by
  obtain ⟨hshape, _⟩ := runIteration_shape net h
  obtain ⟨hbound, hnone⟩ := tryBody_prints_bound net
  refine ⟨_, hshape, ?_, ?_⟩
  · intro k hk
    rcases List.mem_append.mp hk with hk | hk
    · exact tryBody_no_sleep net k hk
    · cases hexc : (tryBody net).2 <;> rw [hexc] at hk <;> simp at hk
  · cases hexc : (tryBody net).2 with
    | none =>
      have h1 := hnone hexc
      simp [h1]
    | some e =>
      have hA := hbound
      simp only [printsOf_append, List.length_append]
      have h2 : (printsOf [Event.print (failureLine e)]).length = 1 := rfl
      rw [h2]
      refine ⟨by omega, by omega, ?_⟩
      constructor
      · intro hlen
        exact ⟨by simp, by omega⟩
      · rintro ⟨-, hlen⟩
        omega

/-- C1 amended witness: the read-failure iteration is cancellation-free and
satisfies the amended outcome-count property (with two reports). -/
theorem C1_amended_outcome_count_witness :
    readFailNet.cancelFree ∧
    (∃ pre, (runIteration readFailNet).1 = pre ++ [Event.sleep 1] ∧
      (∀ k, Event.sleep k ∉ pre) ∧
      1 ≤ (printsOf pre).length ∧ (printsOf pre).length ≤ 2 ∧
      ((printsOf pre).length = 2 ↔
        (tryBody readFailNet).2 ≠ none ∧
          (printsOf (tryBody readFailNet).1).length = 1)) :=
  ⟨by decide, C1_amended_outcome_count readFailNet (by decide)⟩

/-- C2: the code violates the claim — when `conn.getresponse()` raises after
the connection object was created, `conn.close()` (the last statement of the
`try` block, with no `finally`) is never executed: the iteration ends with
the connection opened and never closed. -/
theorem C2_connection_leaked_on_failure :
    Event.connOpened ∈ (runIteration getresponseFailNet).1 ∧
    Event.connClosed ∉ (runIteration getresponseFailNet).1 ∧
    (runIteration getresponseFailNet).2 = .completed := by
  refine ⟨?_, ?_, rfl⟩ <;> decide

/-- C3: any ordinary (non-cancellation) exception raised inside the `try`
block is caught by `except Exception`; the handler reports the failure line
derived from it, the iteration proceeds to the sleep and completes, and the
loop then starts iteration `n + 1` — the error never propagates out. -/
theorem C3_failure_caught_loop_continues (nets : Nat → NetBehavior) (n : Nat)
    (e : Exc) (he : (tryBody (nets n)).2 = some e)
    (hc : e.isCancellation = false) (hs : (nets n).sleepSignal = none) :
    (runIteration (nets n)).1 =
      (tryBody (nets n)).1 ++ [Event.print (failureLine e), Event.sleep 1] ∧
    (runIteration (nets n)).2 = .completed ∧
    procStep nets (procStep nets (.requesting n)) = .requesting (n + 1) := by
  cases htb : tryBody (nets n) with
  | mk evs exc =>
    rw [htb] at he
    subst he
    refine ⟨?_, ?_, ?_⟩
    · simp [runIteration, htb, hc, doSleep, hs]
    · simp [runIteration, htb, hc, doSleep, hs]
    · have h1 : procStep nets (.requesting n) = .sleeping n := by
        show (match tryBody (nets n) with
          | (_, none) => ProcState.sleeping n
          | (_, some e) =>
            if e.isCancellation then ProcState.exited
            else ProcState.sleeping n) = ProcState.sleeping n
        rw [htb]; simp [hc]
      rw [h1]
      show (match (nets n).sleepSignal with
        | some _ => ProcState.exited
        | none => ProcState.requesting (n + 1)) = ProcState.requesting (n + 1)
      rw [hs]

/-- C3 witness: the DNS-failure behavior at iteration 0. -/
theorem C3_failure_caught_loop_continues_witness :
    (tryBody requestFailNet).2 = some ⟨"getaddrinfo failed", false⟩ ∧
    (⟨"getaddrinfo failed", false⟩ : Exc).isCancellation = false ∧
    requestFailNet.sleepSignal = none ∧
    ((runIteration requestFailNet).1 =
      (tryBody requestFailNet).1 ++
        [Event.print (failureLine ⟨"getaddrinfo failed", false⟩),
         Event.sleep 1] ∧
     (runIteration requestFailNet).2 = .completed ∧
     procStep (fun _ => requestFailNet)
       (procStep (fun _ => requestFailNet) (.requesting 0)) =
       .requesting 1) :=
  ⟨rfl, rfl, rfl,
    C3_failure_caught_loop_continues (fun _ => requestFailNet) 0
      ⟨"getaddrinfo failed", false⟩ rfl rfl rfl⟩

/-- C4: in every successful iteration (the `try` block raised nothing, so
`getresponse` returned a response) the single reported line is exactly
`"Status: "` followed by the status code, a space, and the reason phrase;
in particular `Status: 200 OK` for 200/"OK" and `Status: 404 Not Found`
for 404/"Not Found". -/
theorem C4_status_line_exact (net : NetBehavior) (resp : HTTPResponse)
    (hg : net.getresponse = .ok resp) (hnone : (tryBody net).2 = none) :
    printsOf (runIteration net).1 =
      ["Status: " ++ toString resp.status ++ " " ++ resp.reason] ∧
    statusLine ⟨200, "OK", []⟩ = "Status: 200 OK" ∧
    statusLine ⟨404, "Not Found", []⟩ = "Status: 404 Not Found" := by
  refine ⟨?_, by decide, by decide⟩
  obtain ⟨c, r, g, b, cl, s⟩ := net
  cases c <;> cases r <;> cases g <;> cases b <;> cases cl <;> cases s <;>
    simp_all [tryBody, runIteration, doSleep, printsOf, statusLine]

/-- C4 witness: the all-successful iteration with a 200/"OK" response. -/
theorem C4_status_line_exact_witness :
    (allOk ⟨200, "OK", []⟩).getresponse = .ok ⟨200, "OK", []⟩ ∧
    (tryBody (allOk ⟨200, "OK", []⟩)).2 = none ∧
    printsOf (runIteration (allOk ⟨200, "OK", []⟩)).1 = ["Status: 200 OK"] := by
  refine ⟨rfl, rfl, ?_⟩
  have h := (C4_status_line_exact (allOk ⟨200, "OK", []⟩) ⟨200, "OK", []⟩
    rfl rfl).1
  rw [h]
  decide

/-- C5 counterexample: in a fully successful iteration no body-read event
precedes any printed line — the code prints the status line (line 12)
BEFORE it drains the body (line 13), refuting the claimed step order
"drain the body (step 3) before reporting the status line (step 4)". -/
theorem C5_report_precedes_drain_counterexample :
    ¬ readBeforePrint (runIteration (allOk ⟨200, "OK", []⟩)).1 := by
  decide

/-- C5 (amended): in every successful cycle the Poller reads the status
line, REPORTS it to the observer, and only then drains the body and closes
the connection — the trace of a fully successful iteration is exactly:
connection opened, status line printed, body read, connection closed,
sleep. -/
theorem C5_amended_report_then_drain (resp : HTTPResponse) :
    (runIteration (allOk resp)).1 =
      [Event.connOpened, Event.print (statusLine resp), Event.bodyRead,
       Event.connClosed, Event.sleep 1] ∧
    (runIteration (allOk resp)).2 = .completed := by
  constructor <;> rfl

/-- C6: in a cancellation-free environment the loop never terminates from
within — starting from `requesting 0`, the process alternates
`requesting k`, `sleeping k`, `requesting (k+1)`, ... forever; no number of
steps reaches the `exited` state. -/
theorem C6_loop_never_terminates (nets : Nat → NetBehavior)
    (h : ∀ n, (nets n).cancelFree) :
    (∀ k, (procStep nets)^[2 * k] (.requesting 0) = .requesting k ∧
          (procStep nets)^[2 * k + 1] (.requesting 0) = .sleeping k) ∧
    (∀ m, (procStep nets)^[m] (.requesting 0) ≠ .exited) := by
  have key : ∀ k, (procStep nets)^[2 * k] (.requesting 0) = .requesting k ∧
      (procStep nets)^[2 * k + 1] (.requesting 0) = .sleeping k := by
    intro k
    induction k with
    | zero =>
      constructor
      · rfl
      · have e0 : 2 * 0 + 1 = 1 := by omega
        rw [e0, Function.iterate_one]
        exact procStep_requesting nets 0 (h 0)
    | succ k ih =>
      have e1 : 2 * (k + 1) = (2 * k + 1) + 1 := by omega
      have h1 : (procStep nets)^[2 * (k + 1)] (.requesting 0) =
          .requesting (k + 1) := by
        rw [e1, Function.iterate_succ_apply', ih.2]
        exact procStep_sleeping nets k (h k)
      refine ⟨h1, ?_⟩
      rw [Function.iterate_succ_apply', h1]
      exact procStep_requesting nets (k + 1) (h (k + 1))
  refine ⟨key, ?_⟩
  intro m hm
  rcases Nat.even_or_odd m with ⟨k, hk⟩ | ⟨k, hk⟩
  · rw [show m = 2 * k from by omega] at hm
    rw [(key k).1] at hm
    exact ProcState.noConfusion hm
  · rw [show m = 2 * k + 1 from by omega] at hm
    rw [(key k).2] at hm
    exact ProcState.noConfusion hm

/-- C6 witness: six steps of the all-successful environment land back in
`requesting 3`, and seven steps do not exit. -/
theorem C6_loop_never_terminates_witness :
    (procStep okNets)^[2 * 3] (.requesting 0) = .requesting 3 ∧
    (procStep okNets)^[7] (.requesting 0) ≠ .exited :=
  ⟨((C6_loop_never_terminates okNets
      (fun _ => (by decide : (allOk ⟨200, "OK", []⟩).cancelFree))).1 3).1,
   (C6_loop_never_terminates okNets
      (fun _ => (by decide : (allOk ⟨200, "OK", []⟩).cancelFree))).2 7⟩

/-- C7: every cancellation-free iteration ends — whether it succeeded or its
failure was caught — with the 1-second sleep as its last event, all its
reports preceding that sleep; and in the step relation, iteration `n`'s
request phase is followed by its sleep phase, which is followed by
iteration `n + 1`'s request phase. -/
theorem C7_sleep_separates_iterations (nets : Nat → NetBehavior) (n : Nat)
    (h : (nets n).cancelFree) :
    (∃ pre, (runIteration (nets n)).1 = pre ++ [Event.sleep 1] ∧
      ∀ k, Event.sleep k ∉ pre) ∧
    (runIteration (nets n)).2 = .completed ∧
    procStep nets (.requesting n) = .sleeping n ∧
    procStep nets (.sleeping n) = .requesting (n + 1) := by
  obtain ⟨hshape, hcomp⟩ := runIteration_shape (nets n) h
  refine ⟨⟨_, hshape, ?_⟩, hcomp, procStep_requesting nets n h,
    procStep_sleeping nets n h⟩
  intro k hk
  rcases List.mem_append.mp hk with hk | hk
  · exact tryBody_no_sleep (nets n) k hk
  · cases hexc : (tryBody (nets n)).2 <;> rw [hexc] at hk <;> simp at hk

/-- C7 witness: iteration 0 of the all-successful environment. -/
theorem C7_sleep_separates_iterations_witness :
    (okNets 0).cancelFree ∧
    ((∃ pre, (runIteration (okNets 0)).1 = pre ++ [Event.sleep 1] ∧
        ∀ k, Event.sleep k ∉ pre) ∧
     (runIteration (okNets 0)).2 = .completed ∧
     procStep okNets (.requesting 0) = .sleeping 0 ∧
     procStep okNets (.sleeping 0) = .requesting 1) :=
  ⟨by decide, C7_sleep_separates_iterations okNets 0 (by decide)⟩

/-- C8: a cancellation-class exception (`KeyboardInterrupt`/`SystemExit`)
is NOT caught by `except Exception`: if the `try` block raises one, the
iteration ends immediately in `terminated` with no failure line appended
and no sleep; in the step relation such an iteration exits the process, as
does a signal delivered during the sleep. -/
theorem C8_cancellation_not_caught (net : NetBehavior) (e : Exc)
    (hc : e.isCancellation = true) :
    ((tryBody net).2 = some e →
      runIteration net = ((tryBody net).1, .terminated e)) ∧
    (∀ nets : Nat → NetBehavior, ∀ n : Nat, nets n = net →
      (tryBody net).2 = some e → procStep nets (.requesting n) = .exited) ∧
    (∀ nets : Nat → NetBehavior, ∀ n : Nat, nets n = net →
      net.sleepSignal = some e → procStep nets (.sleeping n) = .exited) := by
  refine ⟨?_, ?_, ?_⟩
  · intro he
    cases htb : tryBody net with
    | mk evs exc =>
      have he' : exc = some e := by rw [htb] at he; exact he
      subst he'
      simp [runIteration, htb, hc]
  · intro nets n hn he
    show (match tryBody (nets n) with
      | (_, none) => ProcState.sleeping n
      | (_, some e) =>
        if e.isCancellation then ProcState.exited
        else ProcState.sleeping n) = ProcState.exited
    rw [hn]
    cases htb : tryBody net with
    | mk evs exc =>
      have he' : exc = some e := by rw [htb] at he; exact he
      subst he'
      simp [hc]
  · intro nets n hn hs
    show (match (nets n).sleepSignal with
      | some _ => ProcState.exited
      | none => ProcState.requesting (n + 1)) = ProcState.exited
    rw [hn, hs]

/-- C8 witness: a `KeyboardInterrupt` raised while reading the body
terminates the iteration with no failure report. -/
theorem C8_cancellation_not_caught_witness :
    (⟨"", true⟩ : Exc).isCancellation = true ∧
    (tryBody interruptNet).2 = some ⟨"", true⟩ ∧
    runIteration interruptNet =
      ((tryBody interruptNet).1, .terminated ⟨"", true⟩) :=
  ⟨rfl, rfl, (C8_cancellation_not_caught interruptNet ⟨"", true⟩ rfl).1 rfl⟩

/-- C9: the response body never influences the observable behavior — two
iterations identical except for the body bytes of the response (same status
code, same reason phrase) produce identical traces and outcomes. -/
theorem C9_body_noninterference (net : NetBehavior) (r1 r2 : HTTPResponse)
    (hst : r1.status = r2.status) (hre : r1.reason = r2.reason) :
    runIteration { net with getresponse := .ok r1 } =
      runIteration { net with getresponse := .ok r2 } := by
  have hsl : statusLine r1 = statusLine r2 := by
    simp [statusLine, hst, hre]
  obtain ⟨c, r, g, b, cl, s⟩ := net
  cases c <;> cases r <;> cases b <;> cases cl <;> cases s <;>
    simp [runIteration, tryBody, doSleep, hsl]

/-- C9 witness: bodies `[72, 105]` and `[]` with the same 200/"OK" status
line give the same trace and outcome. -/
theorem C9_body_noninterference_witness :
    (⟨200, "OK", [72, 105]⟩ : HTTPResponse).status =
      (⟨200, "OK", []⟩ : HTTPResponse).status ∧
    (⟨200, "OK", [72, 105]⟩ : HTTPResponse).reason =
      (⟨200, "OK", []⟩ : HTTPResponse).reason ∧
    runIteration
        { allOk ⟨200, "OK", []⟩ with getresponse := .ok ⟨200, "OK", [72, 105]⟩ } =
      runIteration
        { allOk ⟨200, "OK", []⟩ with getresponse := .ok ⟨200, "OK", []⟩ } :=
  ⟨rfl, rfl,
    C9_body_noninterference (allOk ⟨200, "OK", []⟩) ⟨200, "OK", [72, 105]⟩
      ⟨200, "OK", []⟩ rfl rfl⟩

/-- C10: when the handler catches an exception `e`, the trace gains exactly
one printed line beyond the `try` block's own prints, and that line is
exactly `"Request failed: "` followed by `str(e)`. -/
theorem C10_failure_line_exact (net : NetBehavior) (e : Exc)
    (he : (tryBody net).2 = some e) (hc : e.isCancellation = false) :
    failureLine e = "Request failed: " ++ e.msg ∧
    printsOf (runIteration net).1 =
      printsOf (tryBody net).1 ++ ["Request failed: " ++ e.msg] := by
  refine ⟨rfl, ?_⟩
  cases htb : tryBody net with
  | mk evs exc =>
    have he' : exc = some e := by rw [htb] at he; exact he
    subst he'
    cases hss : net.sleepSignal with
    | none =>
      simp [runIteration, htb, hc, doSleep, hss, printsOf_append, printsOf,
        failureLine]
    | some sig =>
      simp [runIteration, htb, hc, doSleep, hss, printsOf_append, printsOf,
        failureLine]

/-- C10 witness: the DNS-failure iteration reports exactly
`Request failed: getaddrinfo failed`. -/
theorem C10_failure_line_exact_witness :
    (tryBody requestFailNet).2 = some ⟨"getaddrinfo failed", false⟩ ∧
    (⟨"getaddrinfo failed", false⟩ : Exc).isCancellation = false ∧
    (failureLine ⟨"getaddrinfo failed", false⟩ =
        "Request failed: " ++ "getaddrinfo failed" ∧
     printsOf (runIteration requestFailNet).1 =
       printsOf (tryBody requestFailNet).1 ++
         ["Request failed: " ++ "getaddrinfo failed"]) :=
  ⟨rfl, rfl,
    C10_failure_line_exact requestFailNet ⟨"getaddrinfo failed", false⟩
      rfl rfl⟩
